import Mathlib

/-
Verification of the imzML-to-NRRD conversion driver (`src/imzml_to_nrrd.py`).

The script is a single linear pipeline (`main`): validate the input path,
resolve the output directory, open the source through the external reader,
resolve the list of target m/z values, and loop over the targets extracting
one ion image per value, accumulating the images into a numpy array and/or
writing one NRRD file per value, then saving the arrays.

The shallow embedding below models the pipeline as a pure function `run`
from the parsed arguments (`Args`) and the behaviour of the external world
(`Env`: filesystem facts plus the responses of the m2aia reader) to the
observable outcome of the process (`RunResult`: exit status, created
directory, written files, accumulator contents, progress and warning
messages).  External library calls (`ImzMLReader`, `GetImage`, disk writes)
are opaque services; their per-call outcomes are inputs in `Env`.  Numpy
arrays are modelled as C-order flat data with explicit shape fields, and
the numpy slice assignment `data_matrix_3d[:, :, i] = ion_array` is
modelled with numpy's broadcasting rule for 2-D sources.  Machine floats
are modelled by their exact rational values; the cast to 32-bit floats
(`np.float32`) is round-to-nearest-even at 24 significand bits, and the
`f"{mz:.4f}"` filename formatting is round-half-even at 4 decimal places,
both on exact rationals.
-/

namespace ImzmlToNrrd

/-- Floor of a rational number, as an integer (`⌊q⌋`), computed by
Euclidean division of the numerator by the (positive) denominator. -/
def ratFloor (q : ℚ) : ℤ := Int.ediv q.num (q.den : ℤ)

/-- Round a rational to the nearest integer, ties to even.  This is the
rounding used both by IEEE-754 binary rounding and by Python's fixed-point
`format` of a float's exact value. -/
def roundHalfEven (x : ℚ) : ℤ :=
  let f : ℤ := ratFloor x
  let r : ℚ := x - (f : ℚ)
  if r < 1/2 then f
  else if 1/2 < r then f + 1
  else if f % 2 = 0 then f else f + 1

/-- Fuel-driven floor of the base-2 logarithm of a natural number
(`natLog2Fuel fuel m` is exact whenever `fuel ≥ m ≥ 1`). -/
def natLog2Fuel : ℕ → ℕ → ℕ
  | 0, _ => 0
  | fuel + 1, m => if 2 ≤ m then natLog2Fuel fuel (m / 2) + 1 else 0

/-- Floor of the base-2 logarithm of a natural number (0 for 0). -/
def natLog2 (m : ℕ) : ℕ := natLog2Fuel m m

/-- Integer power of two in `ℚ` (negative exponents give the inverse). -/
def qpow2 (e : ℤ) : ℚ := (2 : ℚ) ^ e

/-- Floor of the base-2 logarithm of a positive rational, computed from the
bit lengths of numerator and denominator and corrected by comparison. -/
def floorLog2Q (q : ℚ) : ℤ :=
  let e0 : ℤ := (natLog2 q.num.natAbs : ℤ) - (natLog2 q.den : ℤ)
  if qpow2 (e0 + 1) ≤ |q| then e0 + 1
  else if qpow2 e0 ≤ |q| then e0
  else e0 - 1

/-- The exact rational value of a real number rounded to IEEE-754 binary32
(`np.float32`): round to nearest, ties to even, at 24 significand bits.
Overflow and subnormal ranges are outside the m/z values this program
handles and are not modelled. -/
def roundF32 (q : ℚ) : ℚ :=
  if q = 0 then 0
  else
    let a : ℚ := |q|
    let e : ℤ := floorLog2Q a
    let m : ℤ := roundHalfEven (a * qpow2 (23 - e))
    (if q < 0 then (-1 : ℚ) else 1) * (m : ℚ) * qpow2 (e - 23)

/-- Left-pad a (digit) string with zeros to 4 characters. -/
def padZeros4 (s : String) : String :=
  String.mk (List.replicate (4 - s.length) '0') ++ s

/-- Python's `f"{x:.4f}"` on the exact value of a nonnegative float:
round half to even at 4 decimal places and print with exactly 4 decimals.
(The negative-zero edge of printf is not modelled; m/z values are
positive.) -/
def formatFixed4 (q : ℚ) : String :=
  let n10 : ℤ := roundHalfEven (q * 10000)
  let sign : String := if n10 < 0 then "-" else ""
  let m : ℕ := n10.natAbs
  sign ++ toString (m / 10000) ++ "." ++ padZeros4 (toString (m % 10000))

/-- A 2-D ion image as returned by `GetImage` + `sitk.Cast` +
`GetArrayFromImage`: `pixel r c` is the array entry at row `r`, column `c`
(`GetArrayFromImage` reverses the `GetSize` axis order, so the array shape
is `(height, width)`). -/
structure Image where
  height : ℕ
  width : ℕ
  pixel : ℕ → ℕ → ℚ

/-- The 3-D numpy accumulator `data_matrix_3d`, shape
`(dim0, dim1, dim2) = (height, width, n_features)`, stored as C-order flat
data. -/
structure Mat3 where
  dim0 : ℕ
  dim1 : ℕ
  dim2 : ℕ
  data : ℕ → ℚ

/-- Entry `m[r, c, k]`, via the C-order flat index. -/
def Mat3.get (m : Mat3) (r c k : ℕ) : ℚ :=
  m.data ((r * m.dim1 + c) * m.dim2 + k)

/-- `np.zeros((h, w, n), dtype=np.float32)`. -/
def Mat3.zeros (h w n : ℕ) : Mat3 := ⟨h, w, n, fun _ => 0⟩

/-- Whether a 2-D numpy array of shape `(a, b)` can be assigned into a
target slice of shape `(h, w)`: each dimension must match or be 1
(numpy broadcasting). -/
def broadcastOK (a b h w : ℕ) : Bool :=
  (a == h || a == 1) && (b == w || b == 1)

/-- The numpy assignment `m[:, :, k] = img` (with broadcasting along any
source dimension equal to 1).  Only entries inside the array extent
change. -/
def Mat3.setSlice (m : Mat3) (k : ℕ) (img : Image) : Mat3 :=
  { m with data := fun idx =>
      if idx % m.dim2 = k ∧ idx < m.dim0 * m.dim1 * m.dim2 then
        img.pixel (if img.height = 1 then 0 else idx / m.dim2 / m.dim1)
                  (if img.width = 1 then 0 else idx / m.dim2 % m.dim1)
      else m.data idx }

/-- The 2-D numpy array `data_matrix_2d`, shape `(rows, cols)`, stored as
C-order flat data. -/
structure Mat2 where
  rows : ℕ
  cols : ℕ
  data : ℕ → ℚ

/-- Entry `f[p, t]`, via the C-order flat index. -/
def Mat2.get (f : Mat2) (p t : ℕ) : ℚ := f.data (p * f.cols + t)

/-- `m.reshape(-1, cols)`: same C-order data, new shape. -/
def Mat3.reshapeCols (m : Mat3) (cols : ℕ) : Mat2 :=
  ⟨m.dim0 * m.dim1 * m.dim2 / cols, cols, m.data⟩

/-- The parsed command-line arguments (`argparse` namespace).  Paths are
kept abstract: `stem` is `imzml_path.stem`.  Centroid values are the exact
rationals of the parsed doubles. -/
structure Args where
  stem : String
  output_dir : Option String
  centroids : Option (List ℚ)
  tolerance : ℚ
  save_nrrd : Bool
  save_npy_spatial : Bool
  save_npy_list : Bool
  npy_output : Option String

/-- The behaviour of the outside world during one run: filesystem facts
and the responses of the external reader.  `spectrumCentroid` models the
test `"Centroid" in str(spectrum_type)`; `xaxis` is the result of
`GetXAxis()` (`none` = the call raised); `getImage i` is the result of the
`GetImage`/`Cast`/`GetArrayFromImage` sequence at loop iteration `i`
(`none` = it raised).  Disk writes are assumed to succeed. -/
structure Env where
  inputExists : Bool
  outputDirExists : Bool
  openOk : Bool
  spectrumCentroid : Bool
  xaxis : Option (List ℚ)
  getImage : ℕ → Option Image

/-- Python truthiness of `args.centroids` (line 133: `if args.centroids:`),
false for `None` and for an empty list. -/
def centroidsTruthy : Option (List ℚ) → Bool
  | none => false
  | some l => !l.isEmpty

/-- The target list the run will iterate (lines 133-150): the explicit
`--centroids` list cast to `np.float32` when truthy, otherwise the file's
own centroid axis when the spectrum type is centroid, otherwise a fatal
condition (`none`; the code exits 1 in every `none` case). -/
def resolvedTargets (args : Args) (env : Env) : Option (List ℚ) :=
  if centroidsTruthy args.centroids then
    some ((args.centroids.getD []).map roundF32)
  else if env.spectrumCentroid then env.xaxis
  else none

/-- Whether the run calls `GetXAxis()` on the source (line 141): only when
no truthy explicit list was given and the spectrum type is centroid. -/
def consultsXAxis (args : Args) (env : Env) : Bool :=
  !centroidsTruthy args.centroids && env.spectrumCentroid

/-- The mutable state of the extraction loop (lines 163-165 and the loop
body): the lazily captured `image_shape` (`GetSize` order: width, height),
the lazily allocated `data_matrix_3d`, and the observable output streams
gathered so far (NRRD files written as (filename, target index), progress
reports as the reported item count, warnings as (target index, m/z)). -/
structure LoopState where
  image_shape : Option (ℕ × ℕ)
  dm : Option Mat3
  writes : List (String × ℕ)
  progress : List ℕ
  warnings : List (ℕ × ℚ)

/-- The loop state before the first iteration. -/
def initState : LoopState := ⟨none, none, [], [], []⟩

/-- The NRRD filename for one m/z value (line 190):
`f"{imzml_path.stem}_mz_{mz:.4f}.nrrd"`. -/
def nrrdName (args : Args) (mz : ℚ) : String :=
  args.stem ++ "_mz_" ++ formatFixed4 mz ++ ".nrrd"

/-- The tail of a successful loop iteration (lines 187-202): write the
per-value NRRD file if requested, then report progress after every 10th
item and after the last item. -/
def afterAssign (args : Args) (n : ℕ) (s : LoopState) (i : ℕ) (mz : ℚ) :
    LoopState :=
  let s2 := if args.save_nrrd then
      { s with writes := s.writes ++ [(nrrdName args mz, i)] } else s
  if (i + 1) % 10 = 0 ∨ i + 1 = n then
    { s2 with progress := s2.progress ++ [i + 1] } else s2

/-- One iteration of the extraction loop (lines 168-205, `try`/`except`):
extract the image; on failure warn and continue.  On success, lazily
allocate the accumulator from this image's size, then assign the image
into slice `i` (a non-broadcastable shape raises, which the `except`
turns into a warning, keeping the state changes already made), then save
the NRRD file and report progress. -/
def stepItem (args : Args) (env : Env) (n : ℕ) (s : LoopState) (i : ℕ)
    (mz : ℚ) : LoopState :=
  match env.getImage i with
  | none => { s with warnings := s.warnings ++ [(i, mz)] }
  | some img =>
    let s1 :=
      if (args.save_npy_spatial || args.save_npy_list)
          && s.image_shape.isNone then
        { s with image_shape := some (img.width, img.height),
                 dm := some (Mat3.zeros img.height img.width n) }
      else s
    match s1.dm with
    | some m =>
      if broadcastOK img.height img.width m.dim0 m.dim1 then
        afterAssign args n { s1 with dm := some (m.setSlice i img) } i mz
      else { s1 with warnings := s1.warnings ++ [(i, mz)] }
    | none => afterAssign args n s1 i mz

/-- The extraction loop `for i, mz in enumerate(centroids)` (line 168),
threading the loop state. -/
def runLoop (args : Args) (env : Env) (n : ℕ) : ℕ → List ℚ → LoopState →
    LoopState
  | _, [], s => s
  | i, mz :: rest, s =>
    runLoop args env n (i + 1) rest (stepItem args env n s i mz)

/-- The observable outcome of one process run: the exit status (0 normal
completion, 1 for `sys.exit(1)` and for an uncaught exception), whether a
missing `--output-dir` was created, whether `GetXAxis` was consulted, the
NRRD files written in order, the progress reports, the per-item warnings,
the final in-memory accumulators, and which array/metadata files were
written. -/
structure RunResult where
  exitCode : ℕ
  createdOutputDir : Bool
  consultedXAxis : Bool
  writes : List (String × ℕ)
  progress : List ℕ
  warnings : List (ℕ × ℚ)
  spatial : Option Mat3
  flat : Option Mat2
  savedSpatialNpy : Bool
  savedListNpy : Bool
  metadataSaved : Bool

/-- A fatal condition in steps 1-5 (`sys.exit(1)`): nothing was written
and no loop ran. -/
def fatalResult (createdDir consulted : Bool) : RunResult :=
  ⟨1, createdDir, consulted, [], [], [], none, none, false, false, false⟩

/-- The post-loop output phase (lines 207-246).  With an array output
requested and a never-allocated accumulator (`data_matrix_3d is None`):
`--save-npy-spatial` first saves the pickled `None` and then crashes on
`data_matrix_3d.shape` (line 219); otherwise `--save-npy-list` crashes on
`None.reshape` (line 224); either way the process dies on an uncaught
`AttributeError` (exit status 1) before the metadata is written.  With an
allocated accumulator, the requested arrays and the metadata sidecar are
saved and the run completes with exit status 0. -/
def finalize (args : Args) (c : List ℚ) (s : LoopState)
    (createdDir consulted : Bool) : RunResult :=
  if args.save_npy_spatial || args.save_npy_list then
    match s.dm with
    | none =>
      if args.save_npy_spatial then
        ⟨1, createdDir, consulted, s.writes, s.progress, s.warnings,
          none, none, true, false, false⟩
      else
        ⟨1, createdDir, consulted, s.writes, s.progress, s.warnings,
          none, none, false, false, false⟩
    | some m =>
      ⟨0, createdDir, consulted, s.writes, s.progress, s.warnings,
        some m,
        if args.save_npy_list then some (m.reshapeCols c.length) else none,
        args.save_npy_spatial, args.save_npy_list, true⟩
  else
    ⟨0, createdDir, consulted, s.writes, s.progress, s.warnings,
      s.dm, none, false, false, false⟩

/-- The whole `main()` pipeline: input validation (lines 101-104, exit 1
if missing), output directory creation (110-114, before the source is
opened), source open (119-124, exit 1 on failure), target resolution
(133-154, exit 1 when none resolve or the list is empty), tolerance
configuration (157), the extraction loop (168-205) and the output phase
(207-246). -/
def run (args : Args) (env : Env) : RunResult :=
  if env.inputExists then
    let createdDir := args.output_dir.isSome && !env.outputDirExists
    if env.openOk then
      match resolvedTargets args env with
      | some c =>
        if c.isEmpty then fatalResult createdDir (consultsXAxis args env)
        else
          finalize args c (runLoop args env c.length 0 c initState)
            createdDir (consultsXAxis args env)
      | none => fatalResult createdDir (consultsXAxis args env)
    else fatalResult createdDir false
  else fatalResult false false

/-- The final content of the filesystem entry for a given NRRD filename:
the index of the last write with that name, if any (later writes
overwrite earlier ones). -/
def lastWriteIndex (ws : List (String × ℕ)) (name : String) : Option ℕ :=
  ((ws.filter (fun e => e.1 == name)).getLast?).map (fun e => e.2)



/-- C-order flat index arithmetic: the depth coordinate of `(r, c, i)`. -/
theorem idx_mod (r c i w n : ℕ) (hi : i < n) :
    ((r * w + c) * n + i) % n = i := by
  rw [Nat.add_comm, Nat.add_mul_mod_self_right, Nat.mod_eq_of_lt hi]

/-- C-order flat index arithmetic: the plane coordinate of `(r, c, i)`. -/
theorem idx_div (r c i w n : ℕ) (hi : i < n) :
    ((r * w + c) * n + i) / n = r * w + c := by
  have hn : 0 < n := Nat.lt_of_le_of_lt (Nat.zero_le i) hi
  rw [Nat.mul_comm (r * w + c) n, Nat.mul_add_div hn, Nat.div_eq_of_lt hi,
    Nat.add_zero]

/-- Row recovery from a plane index. -/
theorem rowcol_div (r c w : ℕ) (hc : c < w) : (r * w + c) / w = r := by
  have hw : 0 < w := Nat.lt_of_le_of_lt (Nat.zero_le c) hc
  rw [Nat.mul_comm r w, Nat.mul_add_div hw, Nat.div_eq_of_lt hc, Nat.add_zero]

/-- Column recovery from a plane index. -/
theorem rowcol_mod (r c w : ℕ) (hc : c < w) : (r * w + c) % w = c := by
  rw [Nat.mul_comm r w, Nat.mul_add_mod, Nat.mod_eq_of_lt hc]

/-- In-bounds coordinates give an in-extent flat index. -/
theorem idx_lt (r c i h w n : ℕ) (hr : r < h) (hc : c < w) (hi : i < n) :
    (r * w + c) * n + i < h * w * n := by
  have h1 : r * w + c + 1 ≤ h * w := by
    have h3 : r * w + w = (r + 1) * w := by ring
    have h4 : (r + 1) * w ≤ h * w := Nat.mul_le_mul_right w hr
    omega
  calc (r * w + c) * n + i < (r * w + c) * n + n := by omega
    _ = (r * w + c + 1) * n := by ring
    _ ≤ h * w * n := Nat.mul_le_mul_right n h1

@[simp] theorem Mat3.setSlice_dim0 (m : Mat3) (k : ℕ) (img : Image) :
    (m.setSlice k img).dim0 = m.dim0 := rfl

@[simp] theorem Mat3.setSlice_dim1 (m : Mat3) (k : ℕ) (img : Image) :
    (m.setSlice k img).dim1 = m.dim1 := rfl

@[simp] theorem Mat3.setSlice_dim2 (m : Mat3) (k : ℕ) (img : Image) :
    (m.setSlice k img).dim2 = m.dim2 := rfl

@[simp] theorem Mat3.zeros_get (h w n r c k : ℕ) :
    (Mat3.zeros h w n).get r c k = 0 := rfl

/-- Assigning an image whose array shape matches the slice shape writes
each pixel at its own coordinates (the broadcast indices collapse to the
real ones). -/
theorem Mat3.setSlice_get_self (m : Mat3) (k : ℕ) (img : Image)
    (hh : img.height = m.dim0) (hw : img.width = m.dim1)
    (r c : ℕ) (hr : r < m.dim0) (hc : c < m.dim1) (hk : k < m.dim2) :
    (m.setSlice k img).get r c k = img.pixel r c := by
  unfold Mat3.setSlice Mat3.get
  dsimp only
  rw [if_pos ⟨idx_mod r c k m.dim1 m.dim2 hk,
    idx_lt r c k m.dim0 m.dim1 m.dim2 hr hc hk⟩]
  rw [idx_div r c k m.dim1 m.dim2 hk, rowcol_div r c m.dim1 hc,
    rowcol_mod r c m.dim1 hc]
  by_cases h1 : img.height = 1
  · have hr0 : r = 0 := by
      have hd : m.dim0 = 1 := by rw [← hh, h1]
      omega
    by_cases h2 : img.width = 1
    · have hc0 : c = 0 := by
        have hd : m.dim1 = 1 := by rw [← hw, h2]
        omega
      simp [h1, h2, hr0, hc0]
    · simp [h1, h2, hr0]
  · by_cases h2 : img.width = 1
    · have hc0 : c = 0 := by
        have hd : m.dim1 = 1 := by rw [← hw, h2]
        omega
      simp [h1, h2, hc0]
    · simp [h1, h2]

/-- Assigning into slice `k` leaves every other slice `i < dim2`
unchanged. -/
theorem Mat3.setSlice_get_other (m : Mat3) (k : ℕ) (img : Image)
    (r c i : ℕ) (hi : i < m.dim2) (hik : i ≠ k) :
    (m.setSlice k img).get r c i = m.get r c i := by
  unfold Mat3.setSlice Mat3.get
  dsimp only
  rw [if_neg]
  intro hcon
  exact hik ((idx_mod r c i m.dim1 m.dim2 hi).symm.trans hcon.1)

@[simp] theorem broadcastOK_self (a b : ℕ) : broadcastOK a b a b = true := by
  simp [broadcastOK]

theorem afterAssign_image_shape (args : Args) (n : ℕ) (s : LoopState)
    (i : ℕ) (mz : ℚ) :
    (afterAssign args n s i mz).image_shape = s.image_shape := by
  unfold afterAssign
  by_cases h1 : args.save_nrrd = true <;>
    by_cases h2 : (i + 1) % 10 = 0 ∨ i + 1 = n <;> simp [h1, h2]

theorem afterAssign_dm (args : Args) (n : ℕ) (s : LoopState) (i : ℕ)
    (mz : ℚ) : (afterAssign args n s i mz).dm = s.dm := by
  unfold afterAssign
  by_cases h1 : args.save_nrrd = true <;>
    by_cases h2 : (i + 1) % 10 = 0 ∨ i + 1 = n <;> simp [h1, h2]

theorem afterAssign_warnings (args : Args) (n : ℕ) (s : LoopState) (i : ℕ)
    (mz : ℚ) : (afterAssign args n s i mz).warnings = s.warnings := by
  unfold afterAssign
  by_cases h1 : args.save_nrrd = true <;>
    by_cases h2 : (i + 1) % 10 = 0 ∨ i + 1 = n <;> simp [h1, h2]

theorem afterAssign_writes (args : Args) (n : ℕ) (s : LoopState) (i : ℕ)
    (mz : ℚ) :
    (afterAssign args n s i mz).writes = s.writes ++
      (if args.save_nrrd then [(nrrdName args mz, i)] else []) := by
  unfold afterAssign
  by_cases h1 : args.save_nrrd = true <;>
    by_cases h2 : (i + 1) % 10 = 0 ∨ i + 1 = n <;> simp [h1, h2]

theorem afterAssign_progress (args : Args) (n : ℕ) (s : LoopState) (i : ℕ)
    (mz : ℚ) :
    (afterAssign args n s i mz).progress = s.progress ++
      (if (i + 1) % 10 = 0 ∨ i + 1 = n then [i + 1] else []) := by
  unfold afterAssign
  by_cases h1 : args.save_nrrd = true <;>
    by_cases h2 : (i + 1) % 10 = 0 ∨ i + 1 = n <;> simp [h1, h2]

/-- A failed extraction only appends a warning (lines 203-205). -/
theorem stepItem_of_none (args : Args) (env : Env) (n : ℕ) (s : LoopState)
    (i : ℕ) (mz : ℚ) (hgi : env.getImage i = none) :
    stepItem args env n s i mz =
      { s with warnings := s.warnings ++ [(i, mz)] } := by
  unfold stepItem
  rw [hgi]

/-- A successful extraction in array mode with no shape captured yet
allocates the accumulator from this image and assigns it into slice
`i`. -/
theorem stepItem_succ_alloc (args : Args) (env : Env) (n : ℕ)
    (s : LoopState) (i : ℕ) (mz : ℚ) (img : Image)
    (hgi : env.getImage i = some img)
    (hflag : (args.save_npy_spatial || args.save_npy_list) = true)
    (hsh : s.image_shape = none) :
    stepItem args env n s i mz =
      afterAssign args n
        { s with image_shape := some (img.width, img.height),
                 dm := some ((Mat3.zeros img.height img.width n).setSlice
                   i img) } i mz := by
  unfold stepItem
  rw [hgi]
  simp [hsh, hflag, Mat3.zeros, broadcastOK]

/-- A successful extraction with the accumulator already allocated and a
broadcast-compatible image shape assigns into slice `i`. -/
theorem stepItem_succ_assign (args : Args) (env : Env) (n : ℕ)
    (s : LoopState) (i : ℕ) (mz : ℚ) (img : Image) (m : Mat3)
    (hgi : env.getImage i = some img)
    (hcond : ((args.save_npy_spatial || args.save_npy_list)
      && s.image_shape.isNone) = false)
    (hdm : s.dm = some m)
    (hbc : broadcastOK img.height img.width m.dim0 m.dim1 = true) :
    stepItem args env n s i mz =
      afterAssign args n { s with dm := some (m.setSlice i img) } i mz := by
  unfold stepItem
  rw [hgi]
  simp [hcond, hdm, hbc]

/-- A successful extraction with no accumulator and no allocation (array
mode off, or shape already captured) goes straight to the save/report
tail. -/
theorem stepItem_succ_nodm (args : Args) (env : Env) (n : ℕ)
    (s : LoopState) (i : ℕ) (mz : ℚ) (img : Image)
    (hgi : env.getImage i = some img)
    (hcond : ((args.save_npy_spatial || args.save_npy_list)
      && s.image_shape.isNone) = false)
    (hdm : s.dm = none) :
    stepItem args env n s i mz = afterAssign args n s i mz := by
  unfold stepItem
  rw [hgi]
  simp [hcond, hdm]

/-- A successful extraction whose array shape cannot be broadcast into the
allocated slice raises inside the loop body; the handler appends a warning
and the already-made state changes stay. -/
theorem stepItem_succ_mismatch (args : Args) (env : Env) (n : ℕ)
    (s : LoopState) (i : ℕ) (mz : ℚ) (img : Image) (m : Mat3)
    (hgi : env.getImage i = some img)
    (hcond : ((args.save_npy_spatial || args.save_npy_list)
      && s.image_shape.isNone) = false)
    (hdm : s.dm = some m)
    (hbc : broadcastOK img.height img.width m.dim0 m.dim1 = false) :
    stepItem args env n s i mz =
      { s with warnings := s.warnings ++ [(i, mz)] } := by
  unfold stepItem
  rw [hgi]
  simp [hcond, hdm, hbc]


/-- `stepItem` never deallocates the accumulator. -/
theorem stepItem_dm_mono (args : Args) (env : Env) (n : ℕ) (s : LoopState)
    (i : ℕ) (mz : ℚ) (hs : s.dm.isSome = true) :
    (stepItem args env n s i mz).dm.isSome = true := by
  cases hgi : env.getImage i with
  | none => rw [stepItem_of_none args env n s i mz hgi]; exact hs
  | some img =>
    cases hcond : ((args.save_npy_spatial || args.save_npy_list)
        && s.image_shape.isNone) with
    | true =>
      rw [Bool.and_eq_true] at hcond
      obtain ⟨hflag, hsh⟩ := hcond
      rw [stepItem_succ_alloc args env n s i mz img hgi hflag
        (Option.isNone_iff_eq_none.mp hsh), afterAssign_dm]
      rfl
    | false =>
      cases hdm : s.dm with
      | none => rw [hdm] at hs; exact absurd hs (by simp)
      | some m =>
        cases hbc : broadcastOK img.height img.width m.dim0 m.dim1 with
        | true =>
          rw [stepItem_succ_assign args env n s i mz img m hgi hcond hdm hbc,
            afterAssign_dm]
          rfl
        | false =>
          rw [stepItem_succ_mismatch args env n s i mz img m hgi hcond hdm
            hbc]
          rw [hdm] at hs ⊢
          exact hs

/-- `stepItem` keeps the shape capture and the accumulator allocation in
lockstep (they are set together and never cleared). -/
theorem stepItem_coupled (args : Args) (env : Env) (n : ℕ) (s : LoopState)
    (i : ℕ) (mz : ℚ) (hs : s.dm.isSome = s.image_shape.isSome) :
    (stepItem args env n s i mz).dm.isSome =
      (stepItem args env n s i mz).image_shape.isSome := by
  cases hgi : env.getImage i with
  | none => rw [stepItem_of_none args env n s i mz hgi]; exact hs
  | some img =>
    cases hcond : ((args.save_npy_spatial || args.save_npy_list)
        && s.image_shape.isNone) with
    | true =>
      rw [Bool.and_eq_true] at hcond
      obtain ⟨hflag, hsh⟩ := hcond
      rw [stepItem_succ_alloc args env n s i mz img hgi hflag
        (Option.isNone_iff_eq_none.mp hsh), afterAssign_dm,
        afterAssign_image_shape]
      rfl
    | false =>
      cases hdm : s.dm with
      | none =>
        rw [stepItem_succ_nodm args env n s i mz img hgi hcond hdm,
          afterAssign_dm, afterAssign_image_shape]
        exact hs
      | some m =>
        cases hbc : broadcastOK img.height img.width m.dim0 m.dim1 with
        | true =>
          rw [stepItem_succ_assign args env n s i mz img m hgi hcond hdm hbc,
            afterAssign_dm, afterAssign_image_shape]
          rw [hdm] at hs
          exact hs
        | false =>
          rw [stepItem_succ_mismatch args env n s i mz img m hgi hcond hdm
            hbc]
          exact hs

/-- In array mode a successful extraction guarantees an allocated
accumulator after the step. -/
theorem stepItem_dm_some_of_success (args : Args) (env : Env) (n : ℕ)
    (s : LoopState) (i : ℕ) (mz : ℚ) (img : Image)
    (hflag : (args.save_npy_spatial || args.save_npy_list) = true)
    (hcoup : s.dm.isSome = s.image_shape.isSome)
    (hgi : env.getImage i = some img) :
    (stepItem args env n s i mz).dm.isSome = true := by
  cases hsh : s.image_shape with
  | none =>
    rw [stepItem_succ_alloc args env n s i mz img hgi hflag hsh,
      afterAssign_dm]
    rfl
  | some sh =>
    have hdmsome : s.dm.isSome = true := by rw [hcoup, hsh]; rfl
    exact stepItem_dm_mono args env n s i mz hdmsome

/-- The accumulator's feature dimension is always the total target count
(the allocation at line 179 uses `len(centroids)`). -/
theorem stepItem_dim2 (args : Args) (env : Env) (n : ℕ) (s : LoopState)
    (i : ℕ) (mz : ℚ) (hd : ∀ m, s.dm = some m → m.dim2 = n) :
    ∀ m, (stepItem args env n s i mz).dm = some m → m.dim2 = n := by
  cases hgi : env.getImage i with
  | none => rw [stepItem_of_none args env n s i mz hgi]; exact hd
  | some img =>
    cases hcond : ((args.save_npy_spatial || args.save_npy_list)
        && s.image_shape.isNone) with
    | true =>
      rw [Bool.and_eq_true] at hcond
      obtain ⟨hflag, hsh⟩ := hcond
      rw [stepItem_succ_alloc args env n s i mz img hgi hflag
        (Option.isNone_iff_eq_none.mp hsh)]
      intro m hm
      rw [afterAssign_dm] at hm
      have : ((Mat3.zeros img.height img.width n).setSlice i img) = m :=
        Option.some.inj hm
      rw [← this]
      rfl
    | false =>
      cases hdm : s.dm with
      | none =>
        rw [stepItem_succ_nodm args env n s i mz img hgi hcond hdm]
        intro m hm
        rw [afterAssign_dm] at hm
        rw [hdm] at hm
        exact absurd hm (by simp)
      | some m0 =>
        cases hbc : broadcastOK img.height img.width m0.dim0 m0.dim1 with
        | true =>
          rw [stepItem_succ_assign args env n s i mz img m0 hgi hcond hdm
            hbc]
          intro m hm
          rw [afterAssign_dm] at hm
          have : (m0.setSlice i img) = m := Option.some.inj hm
          rw [← this, Mat3.setSlice_dim2]
          exact hd m0 hdm
        | false =>
          rw [stepItem_succ_mismatch args env n s i mz img m0 hgi hcond hdm
            hbc]
          exact hd

/-- `runLoop` never deallocates the accumulator. -/
theorem runLoop_dm_mono (args : Args) (env : Env) (n : ℕ) (l : List ℚ) :
    ∀ (k : ℕ) (s : LoopState), s.dm.isSome = true →
      (runLoop args env n k l s).dm.isSome = true := by
  induction l with
  | nil => intro k s hs; exact hs
  | cons mz rest ih =>
    intro k s hs
    exact ih (k + 1) _ (stepItem_dm_mono args env n s k mz hs)

/-- `runLoop` keeps shape capture and allocation in lockstep. -/
theorem runLoop_coupled (args : Args) (env : Env) (n : ℕ) (l : List ℚ) :
    ∀ (k : ℕ) (s : LoopState), s.dm.isSome = s.image_shape.isSome →
      (runLoop args env n k l s).dm.isSome =
        (runLoop args env n k l s).image_shape.isSome := by
  induction l with
  | nil => intro k s hs; exact hs
  | cons mz rest ih =>
    intro k s hs
    exact ih (k + 1) _ (stepItem_coupled args env n s k mz hs)

/-- In array mode, one successful extraction anywhere in the remaining
items leaves the loop with an allocated accumulator. -/
theorem runLoop_dm_some_of_success (args : Args) (env : Env) (n : ℕ)
    (hflag : (args.save_npy_spatial || args.save_npy_list) = true)
    (l : List ℚ) :
    ∀ (k : ℕ) (s : LoopState), s.dm.isSome = s.image_shape.isSome →
      ∀ j, k ≤ j → j < k + l.length → (env.getImage j).isSome = true →
        (runLoop args env n k l s).dm.isSome = true := by
  induction l with
  | nil =>
    intro k s _ j hj1 hj2 _
    simp only [List.length_nil, Nat.add_zero] at hj2
    omega
  | cons mz rest ih =>
    intro k s hcoup j hj1 hj2 hj
    by_cases hjk : j = k
    · subst hjk
      obtain ⟨img, hgi⟩ := Option.isSome_iff_exists.mp hj
      exact runLoop_dm_mono args env n rest (j + 1) _
        (stepItem_dm_some_of_success args env n s j mz img hflag hcoup hgi)
    · refine ih (k + 1) _ (stepItem_coupled args env n s k mz hcoup) j
        (by omega) ?_ hj
      simp only [List.length_cons] at hj2
      omega

/-- The accumulator's feature dimension through the whole loop. -/
theorem runLoop_dim2 (args : Args) (env : Env) (n : ℕ) (l : List ℚ) :
    ∀ (k : ℕ) (s : LoopState), (∀ m, s.dm = some m → m.dim2 = n) →
      ∀ m, (runLoop args env n k l s).dm = some m → m.dim2 = n := by
  induction l with
  | nil => intro k s hd; exact hd
  | cons mz rest ih =>
    intro k s hd
    exact ih (k + 1) _ (stepItem_dim2 args env n s k mz hd)

theorem finalize_progress (args : Args) (c : List ℚ) (s : LoopState)
    (d cs : Bool) : (finalize args c s d cs).progress = s.progress := by
  unfold finalize
  split
  · split
    · split <;> rfl
    · rfl
  · rfl

theorem finalize_writes (args : Args) (c : List ℚ) (s : LoopState)
    (d cs : Bool) : (finalize args c s d cs).writes = s.writes := by
  unfold finalize
  split
  · split
    · split <;> rfl
    · rfl
  · rfl

theorem finalize_warnings (args : Args) (c : List ℚ) (s : LoopState)
    (d cs : Bool) : (finalize args c s d cs).warnings = s.warnings := by
  unfold finalize
  split
  · split
    · split <;> rfl
    · rfl
  · rfl

theorem finalize_consulted (args : Args) (c : List ℚ) (s : LoopState)
    (d cs : Bool) : (finalize args c s d cs).consultedXAxis = cs := by
  unfold finalize
  split
  · split
    · split <;> rfl
    · rfl
  · rfl

theorem finalize_createdOutputDir (args : Args) (c : List ℚ)
    (s : LoopState) (d cs : Bool) :
    (finalize args c s d cs).createdOutputDir = d := by
  unfold finalize
  split
  · split
    · split <;> rfl
    · rfl
  · rfl

/-- When steps 1-5 all succeed, the run is the loop followed by the output
phase. -/
theorem run_reaches_loop (args : Args) (env : Env) (c : List ℚ)
    (hin : env.inputExists = true) (hopen : env.openOk = true)
    (hres : resolvedTargets args env = some c) (hne : c.isEmpty = false) :
    run args env =
      finalize args c (runLoop args env c.length 0 c initState)
        (args.output_dir.isSome && !env.outputDirExists)
        (consultsXAxis args env) := by
  unfold run
  rw [hin, hopen, hres]
  simp [hne]

/-- A missing input file aborts before anything happens (lines 101-104). -/
theorem run_of_missing_input (args : Args) (env : Env)
    (h : env.inputExists = false) : run args env = fatalResult false false := by
  unfold run
  rw [h]
  simp

/-- A failed source open aborts after the output directory step
(lines 119-124). -/
theorem run_of_open_fail (args : Args) (env : Env)
    (hin : env.inputExists = true) (hopen : env.openOk = false) :
    run args env =
      fatalResult (args.output_dir.isSome && !env.outputDirExists) false := by
  unfold run
  rw [hin, hopen]
  simp


/-- The value slice `i` must hold after the first `k` items: zero until
item `i` has been processed and succeeded, then the image's pixel. -/
def expectedEntry (env : Env) (k i r c : ℕ) : ℚ :=
  if i < k then
    match env.getImage i with
    | some img => img.pixel r c
    | none => 0
  else 0

theorem expectedEntry_of_lt_success (env : Env) (k i r c : ℕ) (img : Image)
    (hik : i < k) (hgi : env.getImage i = some img) :
    expectedEntry env k i r c = img.pixel r c := by
  unfold expectedEntry
  rw [if_pos hik, hgi]

theorem expectedEntry_of_none (env : Env) (k i r c : ℕ)
    (hgi : env.getImage i = none) : expectedEntry env k i r c = 0 := by
  unfold expectedEntry
  split
  · rw [hgi]
  · rfl

theorem expectedEntry_of_ge (env : Env) (k i r c : ℕ) (h : k ≤ i) :
    expectedEntry env k i r c = 0 :=
  if_neg (by omega)

theorem expectedEntry_succ_ne (env : Env) (k i r c : ℕ) (h : i ≠ k) :
    expectedEntry env (k + 1) i r c = expectedEntry env k i r c := by
  unfold expectedEntry
  by_cases h1 : i < k
  · rw [if_pos (by omega), if_pos h1]
  · rw [if_neg (by omega), if_neg h1]

/-- All images the source returns have array shape `(h, w)`: the spec's
fixed-acquisition-geometry assumption about one imzML file. -/
def FixedDims (env : Env) (h w : ℕ) : Prop :=
  ∀ i img, env.getImage i = some img → img.height = h ∧ img.width = w

/-- Accumulator correctness after the first `k` items: fixed dims, each
processed successful target's slice holds its own image, every other
slice is all-zero. -/
def ContentOK (env : Env) (h w n k : ℕ) (m : Mat3) : Prop :=
  m.dim0 = h ∧ m.dim1 = w ∧ m.dim2 = n ∧
  ∀ i r c, i < n → r < h → c < w → m.get r c i = expectedEntry env k i r c

/-- Loop invariant in array mode: either no item has succeeded yet (no
shape captured, no accumulator), or the accumulator is allocated with the
fixed dims and correct contents. -/
def InvS (env : Env) (h w n k : ℕ) (s : LoopState) : Prop :=
  (s.image_shape = none ∧ s.dm = none ∧ ∀ i, i < k → env.getImage i = none)
  ∨ (s.image_shape = some (w, h) ∧
      ∃ m, s.dm = some m ∧ ContentOK env h w n k m)

/-- One loop iteration preserves the accumulator invariant. -/
theorem invS_step (args : Args) (env : Env) (n h w : ℕ)
    (hflag : (args.save_npy_spatial || args.save_npy_list) = true)
    (hfd : FixedDims env h w) (k : ℕ) (mz : ℚ) (s : LoopState)
    (hk : k < n) (hs : InvS env h w n k s) :
    InvS env h w n (k + 1) (stepItem args env n s k mz) := by
  cases hgi : env.getImage k with
  | none =>
    rw [stepItem_of_none args env n s k mz hgi]
    cases hs with
    | inl hleft =>
      obtain ⟨h1, h2, h3⟩ := hleft
      left
      refine ⟨h1, h2, ?_⟩
      intro i hi
      by_cases hik : i = k
      · rw [hik]; exact hgi
      · exact h3 i (by omega)
    | inr hright =>
      obtain ⟨hsh, m, hdm, hd0, hd1, hd2, hcontent⟩ := hright
      right
      refine ⟨hsh, m, hdm, hd0, hd1, hd2, ?_⟩
      intro i r c hi hr hc
      by_cases hik : i = k
      · subst hik
        rw [hcontent i r c hi hr hc, expectedEntry_of_ge env i i r c
          (le_refl i), expectedEntry_of_none env (i + 1) i r c hgi]
      · rw [expectedEntry_succ_ne env k i r c hik]
        exact hcontent i r c hi hr hc
  | some img =>
    obtain ⟨hih, hiw⟩ := hfd k img hgi
    cases hs with
    | inl hleft =>
      obtain ⟨hsh, hdm, hall⟩ := hleft
      rw [stepItem_succ_alloc args env n s k mz img hgi hflag hsh]
      right
      constructor
      · rw [afterAssign_image_shape]
        show some (img.width, img.height) = some (w, h)
        rw [hih, hiw]
      refine ⟨(Mat3.zeros img.height img.width n).setSlice k img, ?_, ?_, ?_,
        ?_, ?_⟩
      · rw [afterAssign_dm]
      · simp [Mat3.zeros, hih]
      · simp [Mat3.zeros, hiw]
      · simp [Mat3.zeros]
      · intro i r c hi hr hc
        by_cases hik : i = k
        · subst hik
          rw [Mat3.setSlice_get_self (Mat3.zeros img.height img.width n) i img
            rfl rfl r c (by simpa [Mat3.zeros, hih] using hr)
            (by simpa [Mat3.zeros, hiw] using hc)
            (by simpa [Mat3.zeros] using hi)]
          rw [expectedEntry_of_lt_success env (i + 1) i r c img (by omega) hgi]
        · rw [Mat3.setSlice_get_other (Mat3.zeros img.height img.width n) k img
            r c i (by simpa [Mat3.zeros] using hi) hik]
          rw [Mat3.zeros_get, expectedEntry_succ_ne env k i r c hik]
          by_cases hik2 : i < k
          · rw [expectedEntry_of_none env k i r c (hall i hik2)]
          · rw [expectedEntry_of_ge env k i r c (by omega)]
    | inr hright =>
      obtain ⟨hsh, m, hdm, hd0, hd1, hd2, hcontent⟩ := hright
      have hcond : ((args.save_npy_spatial || args.save_npy_list)
          && s.image_shape.isNone) = false := by
        rw [hsh]
        simp
      have hbc : broadcastOK img.height img.width m.dim0 m.dim1 = true := by
        rw [hih, hiw, hd0, hd1]
        exact broadcastOK_self h w
      rw [stepItem_succ_assign args env n s k mz img m hgi hcond hdm hbc]
      right
      constructor
      · rw [afterAssign_image_shape]
        exact hsh
      refine ⟨m.setSlice k img, ?_, ?_, ?_, ?_, ?_⟩
      · rw [afterAssign_dm]
      · simp [hd0]
      · simp [hd1]
      · simp [hd2]
      · intro i r c hi hr hc
        by_cases hik : i = k
        · subst hik
          rw [Mat3.setSlice_get_self m i img (by rw [hih, hd0])
            (by rw [hiw, hd1]) r c (by omega) (by omega) (by omega)]
          rw [expectedEntry_of_lt_success env (i + 1) i r c img (by omega) hgi]
        · rw [Mat3.setSlice_get_other m k img r c i (by omega) hik]
          rw [expectedEntry_succ_ne env k i r c hik]
          exact hcontent i r c hi hr hc

/-- The accumulator invariant holds through the whole loop. -/
theorem invS_runLoop (args : Args) (env : Env) (n h w : ℕ)
    (hflag : (args.save_npy_spatial || args.save_npy_list) = true)
    (hfd : FixedDims env h w) (l : List ℚ) :
    ∀ (k : ℕ) (s : LoopState), k + l.length ≤ n → InvS env h w n k s →
      InvS env h w n (k + l.length) (runLoop args env n k l s) := by
  induction l with
  | nil =>
    intro k s _ hs
    simpa using hs
  | cons mz rest ih =>
    intro k s hle hs
    have hk : k < n := by
      simp only [List.length_cons] at hle
      omega
    have h1 := invS_step args env n h w hflag hfd k mz s hk hs
    have h2 := ih (k + 1) _ (by simp only [List.length_cons] at hle; omega) h1
    have harith : k + (mz :: rest).length = k + 1 + rest.length := by
      simp only [List.length_cons]
      omega
    rw [harith]
    exact h2

/-- When steps 1-5 succeed in array mode, the source has fixed image dims
`(h, w)`, and at least one target succeeds, the run ends with an allocated
accumulator of shape `(h, w, len(targets))` holding every successful
target's image at its own slice and zeros elsewhere. -/
theorem run_spatial_content (args : Args) (env : Env) (h w : ℕ)
    (c : List ℚ) (hin : env.inputExists = true) (hopen : env.openOk = true)
    (hres : resolvedTargets args env = some c) (hne : c.isEmpty = false)
    (hflag : (args.save_npy_spatial || args.save_npy_list) = true)
    (hfd : FixedDims env h w) (j : ℕ) (hj : j < c.length)
    (hjs : (env.getImage j).isSome = true) :
    ∃ m, (run args env).spatial = some m ∧
      ContentOK env h w c.length c.length m := by
  have hinv : InvS env h w c.length c.length
      (runLoop args env c.length 0 c initState) := by
    have h0 : InvS env h w c.length 0 initState :=
      Or.inl ⟨rfl, rfl, fun i hi => absurd hi (Nat.not_lt_zero i)⟩
    have := invS_runLoop args env c.length h w hflag hfd c 0 initState
      (by omega) h0
    simpa using this
  cases hinv with
  | inl hl =>
    obtain ⟨-, -, hall⟩ := hl
    rw [hall j hj] at hjs
    exact absurd hjs (by simp)
  | inr hr =>
    obtain ⟨hsh, m, hdm, hok⟩ := hr
    refine ⟨m, ?_, hok⟩
    rw [run_reaches_loop args env c hin hopen hres hne]
    unfold finalize
    rw [hflag, hdm]
    rfl


/-- Whether item `i` produces a progress report (line 201): its body must
have reached the report (extraction succeeded) and the count must be a
multiple of 10 or the last item. -/
def progTrigger (env : Env) (n i : ℕ) : Bool :=
  (env.getImage i).isSome && ((i + 1) % 10 == 0 || i + 1 == n)

theorem progTrigger_of_success (env : Env) (n i : ℕ) (img : Image)
    (hgi : env.getImage i = some img) :
    (if progTrigger env n i then ([i + 1] : List ℕ) else []) =
      (if (i + 1) % 10 = 0 ∨ i + 1 = n then [i + 1] else []) := by
  unfold progTrigger
  rw [hgi]
  by_cases h10 : (i + 1) % 10 = 0 <;> by_cases hn : i + 1 = n <;>
    simp [h10, hn]

theorem progTrigger_of_none (env : Env) (n i : ℕ)
    (hgi : env.getImage i = none) :
    (if progTrigger env n i then ([i + 1] : List ℕ) else []) = [] := by
  unfold progTrigger
  rw [hgi]
  simp

/-- The progress reports the loop will emit for the items starting at
index `k`. -/
def progExpected (env : Env) (n : ℕ) : ℕ → List ℚ → List ℕ
  | _, [] => []
  | k, _ :: rest =>
    (if progTrigger env n k then [k + 1] else []) ++
      progExpected env n (k + 1) rest

/-- Any allocated accumulator has the fixed image dims. -/
def DimInv (h w : ℕ) (s : LoopState) : Prop :=
  ∀ m, s.dm = some m → m.dim0 = h ∧ m.dim1 = w

/-- With fixed image dims a loop iteration emits exactly the expected
progress report and keeps the accumulator dims. -/
theorem stepItem_progress (args : Args) (env : Env) (n h w : ℕ)
    (hfd : FixedDims env h w) (s : LoopState) (i : ℕ) (mz : ℚ)
    (hdim : DimInv h w s) :
    (stepItem args env n s i mz).progress =
      s.progress ++ (if progTrigger env n i then [i + 1] else []) ∧
    DimInv h w (stepItem args env n s i mz) := by
  cases hgi : env.getImage i with
  | none =>
    rw [stepItem_of_none args env n s i mz hgi,
      progTrigger_of_none env n i hgi]
    exact ⟨by simp, hdim⟩
  | some img =>
    obtain ⟨hih, hiw⟩ := hfd i img hgi
    rw [progTrigger_of_success env n i img hgi]
    cases hcond : ((args.save_npy_spatial || args.save_npy_list)
        && s.image_shape.isNone) with
    | true =>
      rw [Bool.and_eq_true] at hcond
      obtain ⟨hflag, hsh⟩ := hcond
      rw [stepItem_succ_alloc args env n s i mz img hgi hflag
        (Option.isNone_iff_eq_none.mp hsh)]
      refine ⟨by rw [afterAssign_progress], ?_⟩
      intro m hm
      rw [afterAssign_dm] at hm
      have hme := Option.some.inj hm
      rw [← hme]
      constructor
      · simp [Mat3.zeros, hih]
      · simp [Mat3.zeros, hiw]
    | false =>
      cases hdm : s.dm with
      | none =>
        rw [stepItem_succ_nodm args env n s i mz img hgi hcond hdm]
        refine ⟨by rw [afterAssign_progress], ?_⟩
        intro m hm
        rw [afterAssign_dm, hdm] at hm
        exact absurd hm (by simp)
      | some m0 =>
        obtain ⟨hm0, hm1⟩ := hdim m0 hdm
        have hbc : broadcastOK img.height img.width m0.dim0 m0.dim1 = true := by
          rw [hih, hiw, hm0, hm1]
          exact broadcastOK_self h w
        rw [stepItem_succ_assign args env n s i mz img m0 hgi hcond hdm hbc]
        refine ⟨by rw [afterAssign_progress], ?_⟩
        intro m hm
        rw [afterAssign_dm] at hm
        have hme := Option.some.inj hm
        rw [← hme]
        simp [hm0, hm1]

/-- With fixed image dims the loop's progress stream is exactly the
expected one. -/
theorem runLoop_progress (args : Args) (env : Env) (n h w : ℕ)
    (hfd : FixedDims env h w) (l : List ℚ) :
    ∀ (k : ℕ) (s : LoopState), DimInv h w s →
      (runLoop args env n k l s).progress =
        s.progress ++ progExpected env n k l ∧
      DimInv h w (runLoop args env n k l s) := by
  induction l with
  | nil =>
    intro k s hdim
    exact ⟨by simp [runLoop, progExpected], hdim⟩
  | cons mz rest ih =>
    intro k s hdim
    obtain ⟨hp, hd⟩ := stepItem_progress args env n h w hfd s k mz hdim
    obtain ⟨hp2, hd2⟩ := ih (k + 1) (stepItem args env n s k mz) hd
    refine ⟨?_, hd2⟩
    show (runLoop args env n (k + 1) rest (stepItem args env n s k mz)).progress = _
    rw [hp2, hp, progExpected]
    simp [List.append_assoc]

/-- The expected progress stream, as a filter over the item indices. -/
theorem progExpected_eq_filter (env : Env) (n : ℕ) (l : List ℚ) :
    ∀ k : ℕ, progExpected env n k l =
      ((List.range' k l.length).filter (fun i => progTrigger env n i)).map
        (fun i => i + 1) := by
  induction l with
  | nil => intro k; simp [progExpected]
  | cons mz rest ih =>
    intro k
    rw [progExpected, List.length_cons, List.range'_succ, List.filter_cons]
    by_cases ht : progTrigger env n k
    · simp [ht, ih (k + 1)]
    · simp [ht, ih (k + 1)]

/-- When steps 1-5 succeed over a fixed-dims source, the run's progress
reports are exactly the successful items at a multiple of 10 or in final
position. -/
theorem run_progress (args : Args) (env : Env) (c : List ℚ) (h w : ℕ)
    (hin : env.inputExists = true) (hopen : env.openOk = true)
    (hres : resolvedTargets args env = some c) (hne : c.isEmpty = false)
    (hfd : FixedDims env h w) :
    (run args env).progress =
      ((List.range c.length).filter
        (fun i => progTrigger env c.length i)).map (fun i => i + 1) := by
  rw [run_reaches_loop args env c hin hopen hres hne, finalize_progress]
  obtain ⟨hp, -⟩ := runLoop_progress args env c.length h w hfd c 0 initState
    (by intro m hm; simp [initState] at hm)
  rw [hp, progExpected_eq_filter env c.length c 0, List.range_eq_range']
  simp [initState]

/-- Whenever the run produces a flattened array it also holds a spatial
accumulator, and the flattened array is its reshape: same data, row width
equal to the accumulator's feature dimension. -/
theorem run_flat_some (args : Args) (env : Env) (f : Mat2)
    (hf : (run args env).flat = some f) :
    ∃ m, (run args env).spatial = some m ∧ f.cols = m.dim2 ∧
      f.data = m.data := by
  cases hin : env.inputExists with
  | false =>
    rw [run_of_missing_input args env hin] at hf
    exact absurd hf (by simp [fatalResult])
  | true =>
    cases hopen : env.openOk with
    | false =>
      rw [run_of_open_fail args env hin hopen] at hf
      exact absurd hf (by simp [fatalResult])
    | true =>
      cases hres : resolvedTargets args env with
      | none =>
        have hrun : run args env =
            fatalResult (args.output_dir.isSome && !env.outputDirExists)
              (consultsXAxis args env) := by
          unfold run
          rw [hin, hopen, hres]
          simp
        rw [hrun] at hf
        exact absurd hf (by simp [fatalResult])
      | some c =>
        cases hne : c.isEmpty with
        | true =>
          have hrun : run args env =
              fatalResult (args.output_dir.isSome && !env.outputDirExists)
                (consultsXAxis args env) := by
            unfold run
            rw [hin, hopen, hres]
            simp [hne]
          rw [hrun] at hf
          exact absurd hf (by simp [fatalResult])
        | false =>
          rw [run_reaches_loop args env c hin hopen hres hne] at hf ⊢
          unfold finalize at hf ⊢
          cases hflag : (args.save_npy_spatial || args.save_npy_list) with
          | false =>
            rw [hflag] at hf
            simp at hf
          | true =>
            rw [hflag] at hf
            cases hdm : (runLoop args env c.length 0 c initState).dm with
            | none =>
              rw [hdm] at hf
              cases hsp : args.save_npy_spatial <;> rw [hsp] at hf <;>
                simp at hf
            | some m =>
              rw [hdm] at hf
              cases hsl : args.save_npy_list with
              | false =>
                rw [hsl] at hf
                simp at hf
              | true =>
                rw [hsl] at hf
                simp only [if_true] at hf
                have hfm : m.reshapeCols c.length = f := by
                  simpa using hf
                have hd2 : m.dim2 = c.length :=
                  runLoop_dim2 args env c.length c 0 initState
                    (by intro m' hm'; simp [initState] at hm') m hdm
                refine ⟨m, by simp, ?_, ?_⟩
                · rw [← hfm]
                  show c.length = m.dim2
                  omega
                · rw [← hfm]
                  rfl


theorem finalize_spatial_of_dm_some (args : Args) (c : List ℚ)
    (s : LoopState) (d cs : Bool) (m : Mat3)
    (hflag : (args.save_npy_spatial || args.save_npy_list) = true)
    (hdm : s.dm = some m) : (finalize args c s d cs).spatial = some m := by
  unfold finalize
  rw [hflag, hdm]
  rfl

theorem finalize_exit_zero_of_dm_some (args : Args) (c : List ℚ)
    (s : LoopState) (d cs : Bool) (m : Mat3)
    (hflag : (args.save_npy_spatial || args.save_npy_list) = true)
    (hdm : s.dm = some m) : (finalize args c s d cs).exitCode = 0 := by
  unfold finalize
  rw [hflag, hdm]
  rfl

theorem finalize_exit_zero_of_noflag (args : Args) (c : List ℚ)
    (s : LoopState) (d cs : Bool)
    (hflag : (args.save_npy_spatial || args.save_npy_list) = false) :
    (finalize args c s d cs).exitCode = 0 := by
  unfold finalize
  rw [hflag]
  rfl

/-- C1 (amended): when steps 1-5 succeed, the process exits 0 no matter
how many individual extractions fail, PROVIDED that, whenever an array
output (`--save-npy-spatial` or `--save-npy-list`) was requested, at least
one target's extraction succeeded.  (When every target fails in array
mode, the output phase dereferences the never-allocated accumulator
(`None.shape` at line 219 / `None.reshape` at line 224) and the process
dies with an uncaught exception, so exit status 1 — see the
counterexample.) -/
theorem c1_exit_zero (args : Args) (env : Env) (c : List ℚ)
    (hin : env.inputExists = true) (hopen : env.openOk = true)
    (hres : resolvedTargets args env = some c) (hne : c.isEmpty = false)
    (hsucc : (args.save_npy_spatial || args.save_npy_list) = true →
      ∃ j, j < c.length ∧ (env.getImage j).isSome = true) :
    (run args env).exitCode = 0 := by
  rw [run_reaches_loop args env c hin hopen hres hne]
  cases hflag : (args.save_npy_spatial || args.save_npy_list) with
  | false =>
    exact finalize_exit_zero_of_noflag args c _ _ _ hflag
  | true =>
    obtain ⟨j, hj, hjs⟩ := hsucc hflag
    have hsome := runLoop_dm_some_of_success args env c.length hflag c 0
      initState rfl j (Nat.zero_le j) (by omega) hjs
    obtain ⟨m, hdm⟩ := Option.isSome_iff_exists.mp hsome
    exact finalize_exit_zero_of_dm_some args c _ _ _ m hflag hdm

/-- C3 (confirmed): whenever the run produces both the spatial and the
flattened array, the flattened array is a pure reshape of the spatial
one: `flattened[p, t] == spatial[p // width, p % width, t]` for all
`p, t`. -/
theorem c3_flat_is_reshape (args : Args) (env : Env)
    (hf : ((run args env).flat).isSome = true) (p t : ℕ) :
    ((run args env).flat).map (fun f => f.get p t) =
      ((run args env).spatial).map
        (fun m => m.get (p / m.dim1) (p % m.dim1) t) := by
  obtain ⟨f, hff⟩ := Option.isSome_iff_exists.mp hf
  obtain ⟨m, hm, hcols, hdata⟩ := run_flat_some args env f hff
  rw [hff, hm]
  simp only [Option.map_some']
  congr 1
  unfold Mat2.get Mat3.get
  rw [hdata, hcols, Nat.div_add_mod']

/-- C6 (confirmed): a nonexistent input path makes the run exit with
status 1 before creating any output file or the output directory. -/
theorem c6_missing_input (args : Args) (env : Env)
    (h : env.inputExists = false) :
    (run args env).exitCode = 1 ∧ (run args env).writes = [] ∧
    (run args env).createdOutputDir = false ∧
    (run args env).savedSpatialNpy = false ∧
    (run args env).savedListNpy = false ∧
    (run args env).metadataSaved = false := by
  rw [run_of_missing_input args env h]
  exact ⟨rfl, rfl, rfl, rfl, rfl, rfl⟩

/-- C8 (confirmed): a missing `--output-dir` is created (line 112) before
the source is opened (line 120), so a run that dies on a source open
failure exits 1 having already created the output directory. -/
theorem c8_dir_created_before_open (args : Args) (env : Env)
    (hdir : args.output_dir.isSome = true)
    (hmiss : env.outputDirExists = false)
    (hin : env.inputExists = true) (hopen : env.openOk = false) :
    (run args env).exitCode = 1 ∧
    (run args env).createdOutputDir = true ∧
    (run args env).writes = [] := by
  rw [run_of_open_fail args env hin hopen]
  refine ⟨rfl, ?_, rfl⟩
  show (args.output_dir.isSome && !env.outputDirExists) = true
  rw [hdir, hmiss]
  rfl


/-- C2 (confirmed, under the spec's fixed-image-dims assumption and with
the accumulator actually allocated, i.e. at least one success): every
successfully extracted target's image sits in the spatial accumulator at
the slice equal to its position in the original target list, and every
failed target's slice is all-zero — no shifting or reindexing. -/
theorem c2_slice_invariant (args : Args) (env : Env) (c : List ℚ)
    (h w : ℕ) (hin : env.inputExists = true) (hopen : env.openOk = true)
    (hres : resolvedTargets args env = some c) (hne : c.isEmpty = false)
    (hflag : (args.save_npy_spatial || args.save_npy_list) = true)
    (hfd : FixedDims env h w) (j : ℕ) (hj : j < c.length)
    (hjs : (env.getImage j).isSome = true) :
    ∃ m, (run args env).spatial = some m ∧ m.dim0 = h ∧ m.dim1 = w ∧
      m.dim2 = c.length ∧
      (∀ i, i < c.length → ∀ img, env.getImage i = some img →
        ∀ r, r < h → ∀ cc, cc < w → m.get r cc i = img.pixel r cc) ∧
      (∀ i, i < c.length → env.getImage i = none →
        ∀ r, r < h → ∀ cc, cc < w → m.get r cc i = 0) := by
  obtain ⟨m, hm, hd0, hd1, hd2, hcontent⟩ :=
    run_spatial_content args env h w c hin hopen hres hne hflag hfd j hj hjs
  refine ⟨m, hm, hd0, hd1, hd2, ?_, ?_⟩
  · intro i hi img hgi r hr cc hcc
    rw [hcontent i r cc hi hr hcc,
      expectedEntry_of_lt_success env c.length i r cc img hi hgi]
  · intro i hi hgi r hr cc hcc
    rw [hcontent i r cc hi hr hcc,
      expectedEntry_of_none env c.length i r cc hgi]

/-- C4 (amended): over a fixed-dims source with array output requested,
the spatial accumulator ends the run with shape
`[height, width, len(targets)]` PROVIDED at least one target's extraction
succeeded; when every target fails, the accumulator is never allocated
(it stays `None` — see the counterexample). -/
theorem c4_shape (args : Args) (env : Env) (c : List ℚ) (h w : ℕ)
    (hin : env.inputExists = true) (hopen : env.openOk = true)
    (hres : resolvedTargets args env = some c) (hne : c.isEmpty = false)
    (hflag : (args.save_npy_spatial || args.save_npy_list) = true)
    (hfd : FixedDims env h w) (j : ℕ) (hj : j < c.length)
    (hjs : (env.getImage j).isSome = true) :
    ∃ m, (run args env).spatial = some m ∧ m.dim0 = h ∧ m.dim1 = w ∧
      m.dim2 = c.length := by
  obtain ⟨m, hm, hd0, hd1, hd2, -⟩ :=
    run_spatial_content args env h w c hin hopen hres hne hflag hfd j hj hjs
  exact ⟨m, hm, hd0, hd1, hd2⟩

/-- C7 (amended): over a fixed-dims source, the progress reports are
exactly the items whose count is a multiple of 10 or final AND whose own
processing succeeded; an item that fails extraction emits no progress
report even in 10th or final position (the report at line 201 sits inside
the `try`, after the extraction), see the counterexample. -/
theorem c7_progress (args : Args) (env : Env) (c : List ℚ) (h w : ℕ)
    (hin : env.inputExists = true) (hopen : env.openOk = true)
    (hres : resolvedTargets args env = some c) (hne : c.isEmpty = false)
    (hfd : FixedDims env h w) :
    (run args env).progress =
      ((List.range c.length).filter
        (fun i => (env.getImage i).isSome
          && ((i + 1) % 10 == 0 || i + 1 == c.length))).map
        (fun i => i + 1) :=
  run_progress args env c h w hin hopen hres hne hfd


section
attribute [local semireducible] Rat.mul Rat.inv Rat.add Rat.sub

/-- `argparse` parses `150.25` exactly; `np.float32` keeps it (it is a
dyadic rational well inside binary32 range) and `f"{mz:.4f}"` prints it
as `150.2500`. -/
theorem fmt_150_25 : formatFixed4 (roundF32 (601 / 4 : ℚ)) = "150.2500" := by
  decide

end

/-- C5 (confirmed): with the explicit list `--centroids 150.25` and
`--save-nrrd`, a run whose steps 1-5 succeed and whose single extraction
succeeds writes exactly one per-value file, named
`<stem>_mz_150.2500.nrrd`, and never consults the file's own centroid
axis. -/
theorem c5_single_file (args : Args) (env : Env) (img : Image)
    (hc : args.centroids = some [(601 / 4 : ℚ)])
    (hnrrd : args.save_nrrd = true)
    (hin : env.inputExists = true) (hopen : env.openOk = true)
    (hgi : env.getImage 0 = some img) :
    (run args env).writes = [(args.stem ++ "_mz_150.2500.nrrd", 0)] ∧
    (run args env).consultedXAxis = false := by
  have hres : resolvedTargets args env = some [roundF32 (601 / 4 : ℚ)] := by
    unfold resolvedTargets
    rw [hc]
    simp [centroidsTruthy]
  have hcons : consultsXAxis args env = false := by
    unfold consultsXAxis
    rw [hc]
    simp [centroidsTruthy]
  have hne : ([roundF32 (601 / 4 : ℚ)] : List ℚ).isEmpty = false := rfl
  rw [run_reaches_loop args env [roundF32 (601 / 4 : ℚ)] hin hopen hres hne,
    finalize_writes, finalize_consulted]
  refine ⟨?_, hcons⟩
  rw [show runLoop args env ([roundF32 (601 / 4 : ℚ)] : List ℚ).length 0
      [roundF32 (601 / 4 : ℚ)] initState =
      stepItem args env 1 initState 0 (roundF32 (601 / 4 : ℚ)) from rfl]
  have hfile : args.stem ++ "_mz_" ++ formatFixed4 (roundF32 (601 / 4 : ℚ))
      ++ ".nrrd" = args.stem ++ "_mz_150.2500.nrrd" := by
    rw [fmt_150_25, String.append_assoc, String.append_assoc]
    rfl
  cases hflag : (args.save_npy_spatial || args.save_npy_list) with
  | true =>
    rw [stepItem_succ_alloc args env 1 initState 0 (roundF32 (601 / 4 : ℚ))
      img hgi hflag rfl, afterAssign_writes, hnrrd]
    simp [initState, nrrdName, hfile]
  | false =>
    have hcond : ((args.save_npy_spatial || args.save_npy_list)
        && initState.image_shape.isNone) = false := by
      rw [hflag]
      rfl
    rw [stepItem_succ_nodm args env 1 initState 0 (roundF32 (601 / 4 : ℚ))
      img hgi hcond rfl, afterAssign_writes, hnrrd]
    simp [initState, nrrdName, hfile]


/-- C9 (confirmed, at the claim's two-target scenario): two targets whose
values format identically at 4 decimal places (exact duplicates included)
fill two distinct accumulator slices but produce the same NRRD filename;
the write for the later target comes after the earlier one's, so the
file's final content is the later target's (at most one file per distinct
formatted value). -/
theorem c9_duplicate_names (args : Args) (env : Env) (v1 v2 : ℚ)
    (img1 img2 : Image) (h w : ℕ)
    (hc : args.centroids = some [v1, v2])
    (hnrrd : args.save_nrrd = true) (hsp : args.save_npy_spatial = true)
    (hin : env.inputExists = true) (hopen : env.openOk = true)
    (h1 : env.getImage 0 = some img1) (h2 : env.getImage 1 = some img2)
    (hd1h : img1.height = h) (hd1w : img1.width = w)
    (hd2h : img2.height = h) (hd2w : img2.width = w)
    (hfmt : formatFixed4 (roundF32 v1) = formatFixed4 (roundF32 v2)) :
    ∃ m, (run args env).spatial = some m ∧
      (∀ r, r < h → ∀ cc, cc < w → m.get r cc 0 = img1.pixel r cc) ∧
      (∀ r, r < h → ∀ cc, cc < w → m.get r cc 1 = img2.pixel r cc) ∧
      (run args env).writes =
        [(nrrdName args (roundF32 v1), 0),
         (nrrdName args (roundF32 v1), 1)] ∧
      lastWriteIndex (run args env).writes (nrrdName args (roundF32 v1)) =
        some 1 := by
  have hres : resolvedTargets args env = some [roundF32 v1, roundF32 v2] := by
    unfold resolvedTargets
    rw [hc]
    simp [centroidsTruthy]
  have hflag : (args.save_npy_spatial || args.save_npy_list) = true := by
    rw [hsp]
    rfl
  have hne : ([roundF32 v1, roundF32 v2] : List ℚ).isEmpty = false := rfl
  have hname : nrrdName args (roundF32 v2) = nrrdName args (roundF32 v1) := by
    unfold nrrdName
    rw [hfmt]
  have hstep1 : stepItem args env 2 initState 0 (roundF32 v1) =
      afterAssign args 2
        { initState with
          image_shape := some (img1.width, img1.height),
          dm := some ((Mat3.zeros img1.height img1.width 2).setSlice 0 img1) } 0 (roundF32 v1) :=
    stepItem_succ_alloc args env 2 initState 0 (roundF32 v1) img1 h1 hflag
      rfl
  have hs1sh : (stepItem args env 2 initState 0 (roundF32 v1)).image_shape
      = some (img1.width, img1.height) := by
    rw [hstep1, afterAssign_image_shape]
  have hs1dm : (stepItem args env 2 initState 0 (roundF32 v1)).dm
      = some ((Mat3.zeros img1.height img1.width 2).setSlice 0 img1) := by
    rw [hstep1, afterAssign_dm]
  have hs1w : (stepItem args env 2 initState 0 (roundF32 v1)).writes
      = [(nrrdName args (roundF32 v1), 0)] := by
    rw [hstep1, afterAssign_writes, hnrrd]
    simp [initState]
  have hcond2 : ((args.save_npy_spatial || args.save_npy_list)
      && (stepItem args env 2 initState 0
        (roundF32 v1)).image_shape.isNone) = false := by
    rw [hs1sh]
    simp
  have hm1d0 : ((Mat3.zeros img1.height img1.width 2).setSlice 0 img1).dim0
      = h := by
    rw [Mat3.setSlice_dim0]
    exact hd1h
  have hm1d1 : ((Mat3.zeros img1.height img1.width 2).setSlice 0 img1).dim1
      = w := by
    rw [Mat3.setSlice_dim1]
    exact hd1w
  have hm1d2 : ((Mat3.zeros img1.height img1.width 2).setSlice 0 img1).dim2
      = 2 := rfl
  have hbc2 : broadcastOK img2.height img2.width
      ((Mat3.zeros img1.height img1.width 2).setSlice 0 img1).dim0
      ((Mat3.zeros img1.height img1.width 2).setSlice 0 img1).dim1
      = true := by
    rw [hd2h, hd2w, hm1d0, hm1d1]
    exact broadcastOK_self h w
  have hstep2 : stepItem args env 2
      (stepItem args env 2 initState 0 (roundF32 v1)) 1 (roundF32 v2) =
      afterAssign args 2
        { (stepItem args env 2 initState 0 (roundF32 v1)) with
          dm := some (((Mat3.zeros img1.height img1.width 2).setSlice 0 img1).setSlice 1 img2) } 1 (roundF32 v2) :=
    stepItem_succ_assign args env 2 _ 1 (roundF32 v2) img2 _ h2 hcond2
      hs1dm hbc2
  have hloop : runLoop args env
      ([roundF32 v1, roundF32 v2] : List ℚ).length 0
      [roundF32 v1, roundF32 v2] initState =
      stepItem args env 2 (stepItem args env 2 initState 0 (roundF32 v1))
        1 (roundF32 v2) := rfl
  have hldm : (runLoop args env
      ([roundF32 v1, roundF32 v2] : List ℚ).length 0
      [roundF32 v1, roundF32 v2] initState).dm =
      some (((Mat3.zeros img1.height img1.width 2).setSlice 0
        img1).setSlice 1 img2) := by
    rw [hloop, hstep2, afterAssign_dm]
  have hlw : (runLoop args env
      ([roundF32 v1, roundF32 v2] : List ℚ).length 0
      [roundF32 v1, roundF32 v2] initState).writes =
      [(nrrdName args (roundF32 v1), 0),
       (nrrdName args (roundF32 v1), 1)] := by
    rw [hloop, hstep2, afterAssign_writes, hnrrd, hname]
    show (stepItem args env 2 initState 0 (roundF32 v1)).writes ++
      [(nrrdName args (roundF32 v1), 1)] = _
    rw [hs1w]
    rfl
  rw [run_reaches_loop args env [roundF32 v1, roundF32 v2] hin hopen hres
    hne, finalize_writes]
  refine ⟨((Mat3.zeros img1.height img1.width 2).setSlice 0
    img1).setSlice 1 img2,
    finalize_spatial_of_dm_some args _ _ _ _ _ hflag hldm, ?_, ?_, ?_, ?_⟩
  · intro r hr cc hcc
    rw [Mat3.setSlice_get_other _ 1 img2 r cc 0 (by rw [hm1d2]; omega)
      (by omega)]
    rw [Mat3.setSlice_get_self (Mat3.zeros img1.height img1.width 2) 0 img1
      rfl rfl r cc (by show r < img1.height; omega)
      (by show cc < img1.width; omega) (by show (0 : ℕ) < 2; omega)]
  · intro r hr cc hcc
    rw [Mat3.setSlice_get_self _ 1 img2 (by rw [hd2h, hm1d0])
      (by rw [hd2w, hm1d1]) r cc (by omega) (by omega) (by omega)]
  · exact hlw
  · rw [hlw]
    simp [lastWriteIndex]

/-- C10 (amended): a successfully extracted image whose dimensions cannot
be broadcast into the already-allocated accumulator slice (neither equal
nor 1 in each dimension) raises inside the loop body; the handler emits a
warning naming the m/z value, the slice stays all-zero, and the run
completes with exit status 0 — a dimension mismatch never aborts the run.
(A broadcastable mismatch, e.g. a 1-by-1 image, is instead assigned by
numpy broadcasting with no warning — see the counterexample.) -/
theorem c10_mismatch_recoverable (args : Args) (env : Env) (v1 v2 : ℚ)
    (img1 img2 : Image)
    (hc : args.centroids = some [v1, v2])
    (hsp : args.save_npy_spatial = true)
    (hin : env.inputExists = true) (hopen : env.openOk = true)
    (h1 : env.getImage 0 = some img1) (h2 : env.getImage 1 = some img2)
    (hbc : broadcastOK img2.height img2.width img1.height img1.width
      = false) :
    (run args env).warnings = [(1, roundF32 v2)] ∧
    (run args env).exitCode = 0 ∧
    ∃ m, (run args env).spatial = some m ∧
      (∀ r, r < img1.height → ∀ cc, cc < img1.width →
        m.get r cc 0 = img1.pixel r cc) ∧
      (∀ r, r < img1.height → ∀ cc, cc < img1.width →
        m.get r cc 1 = 0) := by
  have hres : resolvedTargets args env = some [roundF32 v1, roundF32 v2] := by
    unfold resolvedTargets
    rw [hc]
    simp [centroidsTruthy]
  have hflag : (args.save_npy_spatial || args.save_npy_list) = true := by
    rw [hsp]
    rfl
  have hne : ([roundF32 v1, roundF32 v2] : List ℚ).isEmpty = false := rfl
  have hstep1 : stepItem args env 2 initState 0 (roundF32 v1) =
      afterAssign args 2
        { initState with
          image_shape := some (img1.width, img1.height),
          dm := some ((Mat3.zeros img1.height img1.width 2).setSlice 0 img1) } 0 (roundF32 v1) :=
    stepItem_succ_alloc args env 2 initState 0 (roundF32 v1) img1 h1 hflag
      rfl
  have hs1sh : (stepItem args env 2 initState 0 (roundF32 v1)).image_shape
      = some (img1.width, img1.height) := by
    rw [hstep1, afterAssign_image_shape]
  have hs1dm : (stepItem args env 2 initState 0 (roundF32 v1)).dm
      = some ((Mat3.zeros img1.height img1.width 2).setSlice 0 img1) := by
    rw [hstep1, afterAssign_dm]
  have hs1warn : (stepItem args env 2 initState 0 (roundF32 v1)).warnings
      = [] := by
    rw [hstep1, afterAssign_warnings]
    rfl
  have hcond2 : ((args.save_npy_spatial || args.save_npy_list)
      && (stepItem args env 2 initState 0
        (roundF32 v1)).image_shape.isNone) = false := by
    rw [hs1sh]
    simp
  have hbc2 : broadcastOK img2.height img2.width
      ((Mat3.zeros img1.height img1.width 2).setSlice 0 img1).dim0
      ((Mat3.zeros img1.height img1.width 2).setSlice 0 img1).dim1
      = false := by
    rw [Mat3.setSlice_dim0, Mat3.setSlice_dim1]
    exact hbc
  have hstep2 : stepItem args env 2
      (stepItem args env 2 initState 0 (roundF32 v1)) 1 (roundF32 v2) =
      { (stepItem args env 2 initState 0 (roundF32 v1)) with
        warnings := (stepItem args env 2 initState 0 (roundF32 v1)).warnings ++ [(1, roundF32 v2)] } :=
    stepItem_succ_mismatch args env 2 _ 1 (roundF32 v2) img2 _ h2 hcond2
      hs1dm hbc2
  have hloop : runLoop args env
      ([roundF32 v1, roundF32 v2] : List ℚ).length 0
      [roundF32 v1, roundF32 v2] initState =
      stepItem args env 2 (stepItem args env 2 initState 0 (roundF32 v1))
        1 (roundF32 v2) := rfl
  have hldm : (runLoop args env
      ([roundF32 v1, roundF32 v2] : List ℚ).length 0
      [roundF32 v1, roundF32 v2] initState).dm =
      some ((Mat3.zeros img1.height img1.width 2).setSlice 0 img1) := by
    rw [hloop, hstep2]
    exact hs1dm
  have hlwarn : (runLoop args env
      ([roundF32 v1, roundF32 v2] : List ℚ).length 0
      [roundF32 v1, roundF32 v2] initState).warnings =
      [(1, roundF32 v2)] := by
    rw [hloop, hstep2]
    show (stepItem args env 2 initState 0 (roundF32 v1)).warnings ++
      [(1, roundF32 v2)] = _
    rw [hs1warn]
    rfl
  rw [run_reaches_loop args env [roundF32 v1, roundF32 v2] hin hopen hres
    hne, finalize_warnings]
  refine ⟨hlwarn, finalize_exit_zero_of_dm_some args _ _ _ _ _ hflag hldm,
    (Mat3.zeros img1.height img1.width 2).setSlice 0 img1,
    finalize_spatial_of_dm_some args _ _ _ _ _ hflag hldm, ?_, ?_⟩
  · intro r hr cc hcc
    rw [Mat3.setSlice_get_self (Mat3.zeros img1.height img1.width 2) 0 img1
      rfl rfl r cc (by show r < img1.height; omega)
      (by show cc < img1.width; omega) (by show (0 : ℕ) < 2; omega)]
  · intro r hr cc hcc
    rw [Mat3.setSlice_get_other _ 0 img1 r cc 1
      (by show (1 : ℕ) < 2; omega) (by omega)]
    rfl


section
attribute [local semireducible] Rat.mul Rat.inv Rat.add Rat.sub

/-- Concrete run for the C1 counterexample: one explicit target, array
output on, the only extraction fails. -/
def argsC1x : Args := ⟨"sample", none, some [1], 75, false, true, false, none⟩

/-- Environment for the C1 counterexample: everything before the loop
succeeds, every `GetImage` call raises. -/
def envC1x : Env := ⟨true, false, true, false, none, fun _ => none⟩

/-- C1 counterexample: steps 1-5 succeed (the target list resolves to the
single value 1) and `--save-npy-spatial` is on, yet the run exits 1, not
0: with every extraction failed the accumulator is still `None` and the
output phase dies on `data_matrix_3d.shape` (line 219). -/
theorem c1_counterexample :
    resolvedTargets argsC1x envC1x = some [1] ∧
    (run argsC1x envC1x).exitCode = 1 :=
  ⟨by decide, by decide⟩

/-- Image for the C1 witness. -/
def imgC1w : Image := ⟨2, 2, fun _ _ => 3⟩

/-- Arguments for the C1 witness (array output on). -/
def argsC1w : Args := ⟨"sample", none, some [1], 75, false, true, false, none⟩

/-- Environment for the C1 witness: the single extraction succeeds. -/
def envC1w : Env :=
  ⟨true, false, true, false, none, fun i => if i = 0 then some imgC1w else none⟩

/-- Witness for `c1_exit_zero` at a concrete input. -/
theorem c1_witness :
    envC1w.inputExists = true ∧ envC1w.openOk = true ∧
    resolvedTargets argsC1w envC1w = some [1] ∧
    ([1] : List ℚ).isEmpty = false ∧
    ((argsC1w.save_npy_spatial || argsC1w.save_npy_list) = true →
      ∃ j, j < ([1] : List ℚ).length ∧ (envC1w.getImage j).isSome = true) ∧
    (run argsC1w envC1w).exitCode = 0 := by
  have hsucc : (argsC1w.save_npy_spatial || argsC1w.save_npy_list) = true →
      ∃ j, j < ([1] : List ℚ).length ∧ (envC1w.getImage j).isSome = true :=
    fun _ => ⟨0, by decide, rfl⟩
  exact ⟨rfl, rfl, by decide, rfl, hsucc,
    c1_exit_zero argsC1w envC1w [1] rfl rfl (by decide) rfl hsucc⟩

/-- Image for the C2 witness: a 1-by-2 image with constant intensity 5. -/
def imgC2w : Image := ⟨1, 2, fun _ _ => 5⟩

/-- Arguments for the C2 witness: two targets, spatial output on. -/
def argsC2w : Args := ⟨"sample", none, some [1, 2], 75, false, true, false, none⟩

/-- Environment for the C2 witness: target 0 succeeds, target 1 fails. -/
def envC2w : Env :=
  ⟨true, false, true, false, none, fun i => if i = 0 then some imgC2w else none⟩

/-- Witness for `c2_slice_invariant` at a concrete input. -/
theorem c2_witness :
    envC2w.inputExists = true ∧ envC2w.openOk = true ∧
    resolvedTargets argsC2w envC2w = some [1, 2] ∧
    ([1, 2] : List ℚ).isEmpty = false ∧
    (argsC2w.save_npy_spatial || argsC2w.save_npy_list) = true ∧
    FixedDims envC2w 1 2 ∧ 0 < ([1, 2] : List ℚ).length ∧
    (envC2w.getImage 0).isSome = true ∧
    (∃ m, (run argsC2w envC2w).spatial = some m ∧ m.dim0 = 1 ∧
      m.dim1 = 2 ∧ m.dim2 = ([1, 2] : List ℚ).length ∧
      (∀ i, i < ([1, 2] : List ℚ).length → ∀ img,
        envC2w.getImage i = some img →
        ∀ r, r < 1 → ∀ cc, cc < 2 → m.get r cc i = img.pixel r cc) ∧
      (∀ i, i < ([1, 2] : List ℚ).length → envC2w.getImage i = none →
        ∀ r, r < 1 → ∀ cc, cc < 2 → m.get r cc i = 0)) := by
  have hfd : FixedDims envC2w 1 2 := by
    intro i img hgi
    by_cases hi : i = 0
    · subst hi
      simp [envC2w] at hgi
      rw [← hgi]
      exact ⟨rfl, rfl⟩
    · simp [envC2w, hi] at hgi
  exact ⟨rfl, rfl, by decide, rfl, rfl, hfd, by decide, rfl,
    c2_slice_invariant argsC2w envC2w [1, 2] 1 2 rfl rfl (by decide) rfl
      rfl hfd 0 (by decide) rfl⟩

/-- Image for the C3 witness. -/
def imgC3w : Image := ⟨1, 1, fun _ _ => 7⟩

/-- Arguments for the C3 witness: both array outputs on. -/
def argsC3w : Args := ⟨"sample", none, some [2], 75, false, true, true, none⟩

/-- Environment for the C3 witness: the single extraction succeeds. -/
def envC3w : Env :=
  ⟨true, false, true, false, none, fun i => if i = 0 then some imgC3w else none⟩

/-- Witness for `c3_flat_is_reshape` at a concrete input. -/
theorem c3_witness :
    ((run argsC3w envC3w).flat).isSome = true ∧
    ((run argsC3w envC3w).flat).map (fun f => f.get 0 0) =
      ((run argsC3w envC3w).spatial).map
        (fun m => m.get (0 / m.dim1) (0 % m.dim1) 0) :=
  ⟨rfl, c3_flat_is_reshape argsC3w envC3w rfl 0 0⟩

/-- Arguments for the C4 counterexample: one target, spatial output on. -/
def argsC4x : Args := ⟨"sample", none, some [1], 75, false, true, false, none⟩

/-- Environment for the C4 counterexample: every extraction fails. -/
def envC4x : Env := ⟨true, false, true, false, none, fun _ => none⟩

/-- C4 counterexample: with a non-empty target list (one value) and array
output requested, every extraction fails and the run ends with NO spatial
accumulator at all (`data_matrix_3d` is still `None`), not one of shape
`[h, w, 1]`. -/
theorem c4_counterexample :
    resolvedTargets argsC4x envC4x = some [1] ∧
    (run argsC4x envC4x).spatial = none :=
  ⟨by decide, rfl⟩

/-- Image for the C4 witness. -/
def imgC4w : Image := ⟨1, 2, fun _ _ => 6⟩

/-- Arguments for the C4 witness. -/
def argsC4w : Args := ⟨"sample", none, some [1, 2], 75, false, true, false, none⟩

/-- Environment for the C4 witness: target 0 succeeds, target 1 fails. -/
def envC4w : Env :=
  ⟨true, false, true, false, none, fun i => if i = 0 then some imgC4w else none⟩

/-- Witness for `c4_shape` at a concrete input. -/
theorem c4_witness :
    envC4w.inputExists = true ∧ envC4w.openOk = true ∧
    resolvedTargets argsC4w envC4w = some [1, 2] ∧
    ([1, 2] : List ℚ).isEmpty = false ∧
    (argsC4w.save_npy_spatial || argsC4w.save_npy_list) = true ∧
    FixedDims envC4w 1 2 ∧ 0 < ([1, 2] : List ℚ).length ∧
    (envC4w.getImage 0).isSome = true ∧
    (∃ m, (run argsC4w envC4w).spatial = some m ∧ m.dim0 = 1 ∧
      m.dim1 = 2 ∧ m.dim2 = ([1, 2] : List ℚ).length) := by
  have hfd : FixedDims envC4w 1 2 := by
    intro i img hgi
    by_cases hi : i = 0
    · subst hi
      simp [envC4w] at hgi
      rw [← hgi]
      exact ⟨rfl, rfl⟩
    · simp [envC4w, hi] at hgi
  exact ⟨rfl, rfl, by decide, rfl, rfl, hfd, by decide, rfl,
    c4_shape argsC4w envC4w [1, 2] 1 2 rfl rfl (by decide) rfl rfl hfd 0
      (by decide) rfl⟩

end


section
attribute [local semireducible] Rat.mul Rat.inv Rat.add Rat.sub

/-- Image for the C5 witness. -/
def imgC5w : Image := ⟨1, 1, fun _ _ => 2⟩

/-- Arguments for the C5 witness: the single explicit centroid 150.25 and
`--save-nrrd`. -/
def argsC5w : Args :=
  ⟨"sample", none, some [601 / 4], 75, true, false, false, none⟩

/-- Environment for the C5 witness: the source even has its own centroid
axis (which must never be consulted); the single extraction succeeds. -/
def envC5w : Env :=
  ⟨true, false, true, true, some [9],
    fun i => if i = 0 then some imgC5w else none⟩

/-- Witness for `c5_single_file` at a concrete input. -/
theorem c5_witness :
    argsC5w.centroids = some [(601 / 4 : ℚ)] ∧
    argsC5w.save_nrrd = true ∧ envC5w.inputExists = true ∧
    envC5w.openOk = true ∧ envC5w.getImage 0 = some imgC5w ∧
    ((run argsC5w envC5w).writes =
      [(argsC5w.stem ++ "_mz_150.2500.nrrd", 0)] ∧
     (run argsC5w envC5w).consultedXAxis = false) :=
  ⟨rfl, rfl, rfl, rfl, rfl,
    c5_single_file argsC5w envC5w imgC5w rfl rfl rfl rfl rfl⟩

/-- Arguments for the C6 witness. -/
def argsC6w : Args := ⟨"sample", none, some [1], 75, true, true, true, none⟩

/-- Environment for the C6 witness: the input file does not exist. -/
def envC6w : Env := ⟨false, false, true, false, none, fun _ => none⟩

/-- Witness for `c6_missing_input` at a concrete input. -/
theorem c6_witness :
    envC6w.inputExists = false ∧
    ((run argsC6w envC6w).exitCode = 1 ∧ (run argsC6w envC6w).writes = [] ∧
     (run argsC6w envC6w).createdOutputDir = false ∧
     (run argsC6w envC6w).savedSpatialNpy = false ∧
     (run argsC6w envC6w).savedListNpy = false ∧
     (run argsC6w envC6w).metadataSaved = false) :=
  ⟨rfl, c6_missing_input argsC6w envC6w rfl⟩

/-- Arguments for the C7 counterexample: a single target (so item 1 is the
final item), no array output. -/
def argsC7x : Args :=
  ⟨"sample", none, some [1], 75, false, false, false, none⟩

/-- Environment for the C7 counterexample: the single extraction fails. -/
def envC7x : Env := ⟨true, false, true, false, none, fun _ => none⟩

/-- C7 counterexample: the final (and only) item fails; the loop emits a
warning for it but NO progress report — the report at line 201 sits
inside the `try`, so a failed final item reports nothing, contradicting
"always after the final item, regardless of whether that item's
extraction succeeded or failed". -/
theorem c7_counterexample :
    resolvedTargets argsC7x envC7x = some [1] ∧
    (run argsC7x envC7x).warnings = [(0, 1)] ∧
    (run argsC7x envC7x).progress = [] :=
  ⟨by decide, by decide, by decide⟩

/-- Image for the C7 witness. -/
def imgC7w : Image := ⟨1, 1, fun _ _ => 4⟩

/-- Arguments for the C7 witness: two targets. -/
def argsC7w : Args :=
  ⟨"sample", none, some [1, 2], 75, false, false, false, none⟩

/-- Environment for the C7 witness: both extractions succeed. -/
def envC7w : Env :=
  ⟨true, false, true, false, none,
    fun i => if i < 2 then some imgC7w else none⟩

/-- Witness for `c7_progress` at a concrete input. -/
theorem c7_witness :
    envC7w.inputExists = true ∧ envC7w.openOk = true ∧
    resolvedTargets argsC7w envC7w = some [1, 2] ∧
    ([1, 2] : List ℚ).isEmpty = false ∧ FixedDims envC7w 1 1 ∧
    (run argsC7w envC7w).progress =
      ((List.range ([1, 2] : List ℚ).length).filter
        (fun i => (envC7w.getImage i).isSome
          && ((i + 1) % 10 == 0 || i + 1 == ([1, 2] : List ℚ).length))).map
        (fun i => i + 1) := by
  have hfd : FixedDims envC7w 1 1 := by
    intro i img hgi
    by_cases hi : i < 2
    · simp [envC7w, hi] at hgi
      rw [← hgi]
      exact ⟨rfl, rfl⟩
    · simp [envC7w, hi] at hgi
  exact ⟨rfl, rfl, by decide, rfl, hfd,
    c7_progress argsC7w envC7w [1, 2] 1 1 rfl rfl (by decide) rfl hfd⟩

/-- Arguments for the C8 witness: an explicit `--output-dir`. -/
def argsC8w : Args :=
  ⟨"sample", some "out", some [1], 75, false, false, false, none⟩

/-- Environment for the C8 witness: the input exists, the output directory
does not, and the source open fails. -/
def envC8w : Env := ⟨true, false, false, false, none, fun _ => none⟩

/-- Witness for `c8_dir_created_before_open` at a concrete input. -/
theorem c8_witness :
    argsC8w.output_dir.isSome = true ∧ envC8w.outputDirExists = false ∧
    envC8w.inputExists = true ∧ envC8w.openOk = false ∧
    ((run argsC8w envC8w).exitCode = 1 ∧
     (run argsC8w envC8w).createdOutputDir = true ∧
     (run argsC8w envC8w).writes = []) :=
  ⟨rfl, rfl, rfl, rfl,
    c8_dir_created_before_open argsC8w envC8w rfl rfl rfl rfl⟩

/-- First image for the C9 witness. -/
def imgC9a : Image := ⟨1, 1, fun _ _ => 3⟩

/-- Second image for the C9 witness (different content, same dims). -/
def imgC9b : Image := ⟨1, 1, fun _ _ => 4⟩

/-- Arguments for the C9 witness: two exactly duplicate targets, NRRD and
spatial output on. -/
def argsC9w : Args :=
  ⟨"sample", none, some [1, 1], 75, true, true, false, none⟩

/-- Environment for the C9 witness: both extractions succeed with
different images. -/
def envC9w : Env :=
  ⟨true, false, true, false, none,
    fun i => if i = 0 then some imgC9a
      else if i = 1 then some imgC9b else none⟩

/-- Witness for `c9_duplicate_names` at a concrete input (an exact
duplicate pair). -/
theorem c9_witness :
    argsC9w.centroids = some [1, 1] ∧ argsC9w.save_nrrd = true ∧
    argsC9w.save_npy_spatial = true ∧ envC9w.inputExists = true ∧
    envC9w.openOk = true ∧ envC9w.getImage 0 = some imgC9a ∧
    envC9w.getImage 1 = some imgC9b ∧
    formatFixed4 (roundF32 1) = formatFixed4 (roundF32 1) ∧
    (∃ m, (run argsC9w envC9w).spatial = some m ∧
      (∀ r, r < 1 → ∀ cc, cc < 1 → m.get r cc 0 = imgC9a.pixel r cc) ∧
      (∀ r, r < 1 → ∀ cc, cc < 1 → m.get r cc 1 = imgC9b.pixel r cc) ∧
      (run argsC9w envC9w).writes =
        [(nrrdName argsC9w (roundF32 1), 0),
         (nrrdName argsC9w (roundF32 1), 1)] ∧
      lastWriteIndex (run argsC9w envC9w).writes
        (nrrdName argsC9w (roundF32 1)) = some 1) :=
  ⟨rfl, rfl, rfl, rfl, rfl, rfl, rfl, rfl,
    c9_duplicate_names argsC9w envC9w 1 1 imgC9a imgC9b 1 1 rfl rfl rfl
      rfl rfl rfl rfl rfl rfl rfl rfl rfl⟩

/-- First image for the C10 counterexample: 2-by-2. -/
def imgC10a : Image := ⟨2, 2, fun _ _ => 5⟩

/-- Second image for the C10 counterexample: 1-by-1 with intensity 7 -
dimensions different from the first, but numpy-broadcastable. -/
def imgC10b : Image := ⟨1, 1, fun _ _ => 7⟩

/-- Arguments for the C10 counterexample. -/
def argsC10x : Args :=
  ⟨"sample", none, some [1, 2], 75, false, true, false, none⟩

/-- Environment for the C10 counterexample. -/
def envC10x : Env :=
  ⟨true, false, true, false, none,
    fun i => if i = 0 then some imgC10a
      else if i = 1 then some imgC10b else none⟩

/-- C10 counterexample: the second image's dimensions (1-by-1) differ from
the first successful image's (2-by-2), yet the slice assignment does NOT
fail: numpy broadcasts it, the slice is filled with the value 7 (not left
zero), and no warning is emitted. -/
theorem c10_counterexample :
    envC10x.getImage 1 = some imgC10b ∧
    (imgC10b.height, imgC10b.width) ≠ (imgC10a.height, imgC10a.width) ∧
    (run argsC10x envC10x).warnings = [] ∧
    ((run argsC10x envC10x).spatial).map (fun m => m.get 0 0 1) = some 7 ∧
    (run argsC10x envC10x).exitCode = 0 :=
  ⟨rfl, by decide, by decide, by decide, by decide⟩

/-- First image for the C10 witness: 2-by-2. -/
def imgC10c : Image := ⟨2, 2, fun _ _ => 5⟩

/-- Second image for the C10 witness: 2-by-3, not broadcastable into a
2-by-2 slice. -/
def imgC10d : Image := ⟨2, 3, fun _ _ => 9⟩

/-- Arguments for the C10 witness. -/
def argsC10w : Args :=
  ⟨"sample", none, some [1, 2], 75, false, true, false, none⟩

/-- Environment for the C10 witness. -/
def envC10w : Env :=
  ⟨true, false, true, false, none,
    fun i => if i = 0 then some imgC10c
      else if i = 1 then some imgC10d else none⟩

/-- Witness for `c10_mismatch_recoverable` at a concrete input. -/
theorem c10_witness :
    argsC10w.centroids = some [1, 2] ∧
    argsC10w.save_npy_spatial = true ∧ envC10w.inputExists = true ∧
    envC10w.openOk = true ∧ envC10w.getImage 0 = some imgC10c ∧
    envC10w.getImage 1 = some imgC10d ∧
    broadcastOK imgC10d.height imgC10d.width imgC10c.height imgC10c.width
      = false ∧
    ((run argsC10w envC10w).warnings = [(1, roundF32 2)] ∧
     (run argsC10w envC10w).exitCode = 0 ∧
     ∃ m, (run argsC10w envC10w).spatial = some m ∧
       (∀ r, r < imgC10c.height → ∀ cc, cc < imgC10c.width →
         m.get r cc 0 = imgC10c.pixel r cc) ∧
       (∀ r, r < imgC10c.height → ∀ cc, cc < imgC10c.width →
         m.get r cc 1 = 0)) :=
  ⟨rfl, rfl, rfl, rfl, rfl, rfl, by decide,
    c10_mismatch_recoverable argsC10w envC10w 1 2 imgC10c imgC10d rfl rfl
      rfl rfl rfl rfl (by decide)⟩

end

end ImzmlToNrrd
